import Mathlib

/-!
# Verification of the proxytest execution engine

A shallow embedding of the core of the `proxytest` repository:

* `request.py` — the request lifecycle state machine (`RequestStatus`,
  `RequestInfo`, `ProxyTestContext`);
* `parallel.py` — the worker-pool dispatcher (`process_requests`);
* `backend.py`  — the backend registry (`register`, `find_backends`,
  `reset_backends`, `import_exception_manager`);
* `proxytest.py` — the runner and exit-code classification
  (`Runner.run_once`, `Runner.Backend._find_processor`,
  `run_from_command_line`, `ExitCode`).

Python exceptions are modelled with `Except`; Python's `time.monotonic()`
readings are passed in explicitly as positive natural numbers; Python's
truthiness test on an optional timestamp is `optNatTruthy`.
-/

namespace Proxytest

/-- A Python exception value raised by user code (a backend callback or
strategy).  `message` models `str(e)` and `rep` models `repr(e)`; an
exception object itself is always truthy in Python. -/
structure PyException where
  message : String
  rep : String
deriving Repr, DecidableEq

/-- `str(error) or repr(error)` from `RequestStatus.finish`: the stored error
string falls back to the repr when the str is empty. -/
def PyException.text (e : PyException) : String :=
  if e.message = "" then e.rep else e.message

/-- Exceptions raised by the engine's own code: `ValueError`, `TypeError`,
`AssertionError` (from `assert`), and `backend.AlreadyInRegistry`. -/
inductive PyError where
  | valueError (msg : String)
  | typeError (msg : String)
  | assertionError (msg : String)
  | alreadyInRegistry (name : String)
deriving Repr, DecidableEq

/-- Python truthiness of an optional numeric timestamp: `None` and `0` are
falsy, any other number is truthy.  (`time.monotonic()` readings are modelled
as positive naturals, so a set timestamp is always truthy.) -/
def optNatTruthy : Option Nat → Bool
  | none => false
  | some n => n ≠ 0

/-- `request.RequestStatus.__init__`: the five mutable fields, all `None`
initially. -/
structure RequestStatus where
  started : Option Nat
  finished : Option Nat
  error : Option String
  result : Option String
  status_code : Option Nat
deriving Repr, DecidableEq

/-- A fresh `RequestStatus()`. -/
def RequestStatus.init : RequestStatus :=
  { started := none, finished := none, error := none
    result := none, status_code := none }

/-- `RequestStatus.succeeded`: `self.finished and self.error is None`
(Python `and` on a falsy left operand yields a falsy value). -/
def RequestStatus.succeeded (s : RequestStatus) : Bool :=
  optNatTruthy s.finished && s.error == none

/-- `RequestStatus.start`: `assert not self.finished` then record the
monotonic clock reading `t`.  Note the assert checks `finished`, not
`started`. -/
def RequestStatus.start (s : RequestStatus) (t : Nat) : Except PyError RequestStatus :=
  if optNatTruthy s.finished then
    .error (.assertionError "start called on a finished status")
  else
    .ok { s with started := some t }

/-- `RequestStatus.finish`: `assert self.started`, then set the finished
timestamp, the derived error string (`None if not error else (str(error) or
repr(error))`), the result and the status code.  Note the assert checks
`started`, not "`finished` is unset". -/
def RequestStatus.finish (s : RequestStatus) (t : Nat) (error : Option PyException)
    (result : Option String) (status_code : Option Nat) : Except PyError RequestStatus :=
  if ¬ optNatTruthy s.started then
    .error (.assertionError "finish called on an unstarted status")
  else
    .ok { s with finished := some t
                 error := error.map PyException.text
                 result := result
                 status_code := status_code }

/-- `request.RequestConfig`: the immutable per-request configuration.  The
`start_callback`/`end_callback` hooks are logging-only side effects invoked by
`RequestInfo.start`/`finish`; they do not touch the status and are not
modelled beyond their presence flags. -/
structure RequestConfig where
  url : String
  proxy_url : Option String
  name : String
  has_start_callback : Bool
  has_end_callback : Bool
deriving Repr, DecidableEq

/-- `request.RequestInfo`: one configuration paired with one mutable status. -/
structure RequestInfo where
  config : RequestConfig
  status : RequestStatus
deriving Repr, DecidableEq

/-- `RequestInfo.__init__(config)`: a fresh status. -/
def RequestInfo.make (config : RequestConfig) : RequestInfo :=
  { config := config, status := RequestStatus.init }

/-- `RequestInfo.start`: `self.status = RequestStatus()` (a reset to a fresh
status!) followed by `self.status.start()`, then the start hook. -/
def RequestInfo.start (r : RequestInfo) (t : Nat) : Except PyError RequestInfo :=
  (RequestStatus.init.start t).map fun st => { r with status := st }

/-- `RequestInfo.finish`: raises `ValueError` when neither `error` nor
`result` is given, otherwise delegates to `RequestStatus.finish`, then the
end hook.  The `ValueError` is raised before any field is mutated. -/
def RequestInfo.finish (r : RequestInfo) (t : Nat) (error : Option PyException)
    (result : Option String) (status_code : Option Nat) : Except PyError RequestInfo :=
  if error = none ∧ result = none then
    .error (.valueError "Either error or result is required.")
  else
    (r.status.finish t error result status_code).map fun st => { r with status := st }

/-- `request._non_negative`: `max([0, (number or 0)])`; `None` and `0` are
falsy, so both map to `0` before the `max`. -/
def nonNegative (number : Option Int) : Int :=
  max 0 (match number with
         | none => 0
         | some n => if n = 0 then 0 else n)

/-- `request.ProxyTestContext`: the session object handed to a backend. -/
structure ProxyTestContext where
  timeout : Int
  max_workers : Int
  requests : List RequestInfo
deriving Repr, DecidableEq

/-- `ProxyTestContext.__init__`: clamps `timeout` and `max_workers` through
`_non_negative` and defaults `requests` to the empty list. -/
def ProxyTestContext.make (requests : Option (List RequestInfo))
    (timeout : Option Int) (max_workers : Option Int) : ProxyTestContext :=
  { timeout := nonNegative timeout
    max_workers := nonNegative max_workers
    requests := requests.getD [] }

/-! ## The dispatcher (`parallel.process_requests`)

`process_requests(requests, callback, max_workers)` either runs the callback
sequentially on the calling thread (`max_workers == 1`), or submits every
request to a `ThreadPoolExecutor` whose size is `max_workers` when positive
and `len(requests)` otherwise.  The `with` block shuts the pool down with
`wait=True`, so the call returns only after every submitted callback has run
to completion; an exception raised inside a pooled callback is captured in a
`Future` that is never examined, while in sequential mode it propagates out
of `process_requests`.

A callback is modelled as `α → α × Option PyException`: the record's state
after the callback ran (in-place mutations persist even when the callback
then raises) together with the exception it raised, if any. -/

/-- Which execution shape `process_requests` chose: the sequential loop
(no pool), a `ThreadPoolExecutor` of the given size, or a failed pool
construction (`ThreadPoolExecutor` raises `ValueError` when
`max_workers <= 0`). -/
inductive PoolMode where
  | noPool
  | pool (size : Nat)
  | invalidPool (size : Int)
deriving Repr, DecidableEq

/-- How a dispatch call ended: a normal return carrying each record's final
state and captured exception; a propagated callback exception (sequential
mode) carrying the new states of the records attempted so far; or the
`ValueError` from constructing a zero-sized pool. -/
inductive DispatchOutcome (α : Type) where
  | completed (results : List (α × Option PyException))
  | raised (e : PyException) (processed : List α)
  | poolInitError
deriving Repr, DecidableEq

/-- One dispatch call: the pool mode chosen, the records handed to the
callback in invocation/submission order, and the outcome. -/
structure DispatchRun (α : Type) where
  mode : PoolMode
  attempts : List α
  outcome : DispatchOutcome α
deriving Repr, DecidableEq

/-- The `max_workers == 1` loop: `for request in requests: callback(request)`.
Returns the records attempted, their new states, and the exception that
ended the loop early, if any. -/
def seqLoop (callback : α → α × Option PyException) :
    List α → List α × List α × Option PyException
  | [] => ([], [], none)
  | r :: rest =>
    match callback r with
    | (r', some e) => ([r], [r'], some e)
    | (r', none) =>
      let t := seqLoop callback rest
      (r :: t.1, r' :: t.2.1, t.2.2)

/-- `max_workers = int(max_workers or 0)`: `None` and `0` are falsy and map
to `0`. -/
def intOrZero (max_workers : Option Int) : Int :=
  match max_workers with
  | none => 0
  | some n => if n = 0 then 0 else n

/-- `max_workers if max_workers > 0 else len(requests)`: the size handed to
`ThreadPoolExecutor` when a pool is used. -/
def effectivePoolSize (requests : List α) (mw : Int) : Int :=
  if mw > 0 then mw else requests.length

/-- `parallel.process_requests`: `max_workers = int(max_workers or 0)`; if it
equals 1, run the sequential loop; otherwise build a pool of size
`max_workers if max_workers > 0 else len(requests)` and submit every request
in batch order. -/
def process_requests (requests : List α) (max_workers : Option Int)
    (callback : α → α × Option PyException) : DispatchRun α :=
  let mw : Int := intOrZero max_workers
  if mw = 1 then
    let t := seqLoop callback requests
    { mode := .noPool
      attempts := t.1
      outcome := match t.2.2 with
                 | some e => .raised e t.2.1
                 | none => .completed (t.2.1.map fun r => (r, none)) }
  else
    let size : Int := effectivePoolSize requests mw
    if size ≤ 0 then
      { mode := .invalidPool size, attempts := [], outcome := .poolInitError }
    else
      { mode := .pool size.toNat
        attempts := requests
        outcome := .completed (requests.map callback) }

/-! ## The backend registry (`backend.py`) -/

/-- A Python value stored in (or offered to) the registry: a callable with an
identity, or a non-callable object.  `callable(x)` distinguishes them. -/
inductive PyValue where
  | pyfunc (id : Nat)
  | pystr (s : String)
  | pynone
deriving Repr, DecidableEq

/-- Python `callable()`. -/
def PyValue.callable : PyValue → Bool
  | .pyfunc _ => true
  | _ => false

/-- The module-global `REGISTRY` dict, as an insertion-ordered association
list with unique keys. -/
abbrev Registry := List (String × PyValue)

/-- `backend.register(name, processor)`: `ValueError` on an empty name (the
`isinstance(name, str)` check cannot fire here since names are strings),
`TypeError` on a non-callable processor, `AlreadyInRegistry` on a duplicate
name; otherwise adds the new entry.  Each check happens before the dict is
mutated. -/
def register (reg : Registry) (name : String) (processor : PyValue) :
    Except PyError Registry :=
  if name = "" then
    .error (.valueError "Missing backend name!")
  else if ¬ processor.callable then
    .error (.typeError "processor should be callable, got str!")
  else if (List.lookup name reg).isSome then
    .error (.alreadyInRegistry name)
  else
    .ok (reg ++ [(name, processor)])

/-- What a module in the `proxytest.backends` namespace package does when its
top level runs (on first import or on `importlib.reload`): register some
backends in order, raise `MissingDependenciesError` with a package list, or
raise `NotSupportedError`. -/
inductive ModuleBehavior where
  | registers (entries : List (String × PyValue))
  | missingDeps (packages : List String)
  | notSupported
deriving Repr, DecidableEq

/-- One discoverable module: its absolute name and its top-level behavior. -/
structure BackendModule where
  name : String
  behavior : ModuleBehavior
deriving Repr, DecidableEq

/-- The module-global registry state: `REGISTRY`, `SUGGESTED_PACKAGES`, and
the set of modules already imported successfully (`sys.modules` plus the
`__proxytest_loaded__` flag — an import that raised is not cached). -/
structure BackendState where
  registry : Registry
  suggested : List String
  loaded : List String
deriving Repr, DecidableEq

/-- Insert into a sorted list of strings, keeping order. -/
def insertSorted (s : String) : List String → List String
  | [] => [s]
  | x :: xs => if s ≤ x then s :: x :: xs else x :: insertSorted s xs

/-- Python's `sorted()` on a list of package-name strings
(`MissingDependenciesError.__init__` sorts its argument). -/
def sortStrings : List String → List String
  | [] => []
  | x :: xs => insertSorted x (sortStrings xs)

/-- `backend.reset_backends()`: clears `REGISTRY` and `SUGGESTED_PACKAGES`
(but of course not `sys.modules`). -/
def reset_backends (st : BackendState) : BackendState :=
  { st with registry := [], suggested := [] }

/-- Register a module's entries one after another, as its top-level
registration calls would; the first failure propagates. -/
def registerAll (reg : Registry) : List (String × PyValue) → Except PyError Registry
  | [] => .ok reg
  | (n, p) :: rest =>
    match register reg n p with
    | .error e => .error e
    | .ok reg' => registerAll reg' rest

/-- `'._' in name`: Python substring containment on the module name. -/
def charsContainDotUnderscore : List Char → Bool
  | '.' :: '_' :: _ => true
  | _ :: rest => charsContainDotUnderscore rest
  | [] => false

def nameHasUnderscorePart (name : String) : Bool :=
  charsContainDotUnderscore name.toList

/-- One iteration of the `find_backends` loop under
`import_exception_manager`: skip `'._'` names; run the module top level
(import or reload — both execute the registration calls); catch
`MissingDependenciesError` by extending `SUGGESTED_PACKAGES` with the
*sorted* package list (`MissingDependenciesError.__init__` sorts it) and
catch `NotSupportedError` silently; let any other exception — in particular
`AlreadyInRegistry` — propagate. -/
def find_backends_step (st : BackendState) (m : BackendModule) :
    Except PyError BackendState :=
  if nameHasUnderscorePart m.name then
    .ok st
  else
    match m.behavior with
    | .notSupported => .ok st
    | .missingDeps pkgs =>
      .ok { st with suggested := st.suggested ++ sortStrings pkgs }
    | .registers entries =>
      match registerAll st.registry entries with
      | .error e => .error e
      | .ok reg' =>
        .ok { st with registry := reg'
                      loaded := if m.name ∈ st.loaded then st.loaded
                                else st.loaded ++ [m.name] }

/-- `backend.find_backends()`: iterate every module of the namespace package
in order, loading each through `import_exception_manager`. -/
def find_backends (st : BackendState) : List BackendModule → Except PyError BackendState
  | [] => .ok st
  | m :: rest =>
    match find_backends_step st m with
    | .error e => .error e
    | .ok st' => find_backends st' rest

/-! ## The runner and exit-code classification (`proxytest.py`) -/

/-- `proxytest.UnableToTest`, with one constructor per raise site relevant
here: the three failures of `Runner.Backend._find_processor`, the wrapper
around a processor exception in `Runner.run_once`, and the
incomplete-batch violation (carrying the unfinished count and the batch
total, as the message `'N out of M requests unfinished!'` does). -/
inductive UnableToTest where
  | noBackends
  | backendNotAvailable (name : String)
  | invalidProcessor (name : String)
  | processorError (backend : String) (e : PyException)
  | incompleteBatch (unfinished total : Nat)
deriving Repr, DecidableEq

/-- `proxytest.ExitCode` namespace. -/
def ExitCode.success : Nat := 0

def ExitCode.fail : Nat := 1

def ExitCode.unable_to_test : Nat := 2

/-- The mutable fields of `proxytest.Runner` touched by `run_once`:
the request batch (`self.context.requests`) and the statistics counters. -/
structure RunnerState where
  requests : List RequestInfo
  failed_count : Nat
  ran_count : Nat
  start_time : Nat
  start_time_all_runs : Nat
deriving Repr, DecidableEq

/-- `Runner.__init__`: counters and timestamps start at zero. -/
def RunnerState.init (requests : List RequestInfo) : RunnerState :=
  { requests := requests, failed_count := 0, ran_count := 0
    start_time := 0, start_time_all_runs := 0 }

/-- A backend processor (strategy), as `Runner.run_once` sees it: it mutates
the batch in place and may raise.  The first component is the batch's state
when the call ends — mutations persist even when the processor then
raises. -/
abbrev Processor := List RequestInfo → List RequestInfo × Option PyException

/-- `Runner.run_once` at monotonic time `t`, running the processor of the
backend named `backendName`.  Sets `start_time` (and `start_time_all_runs`
via Python `or`), invokes the processor, wraps its exception into
`UnableToTest`, raises `UnableToTest` when any request is unfinished
(before the statistics lines run!), and otherwise adds the not-succeeded
count to `failed_count`, the batch size to `ran_count`, and clears
`start_time`.  The returned state is the runner's state when the call
ends, raise or no raise. -/
def run_once (st : RunnerState) (t : Nat) (backendName : String)
    (proc : Processor) : RunnerState × Option UnableToTest :=
  let st := { st with
              start_time := t
              start_time_all_runs := if st.start_time_all_runs ≠ 0 then
                                       st.start_time_all_runs
                                     else t }
  match proc st.requests with
  | (reqs, some e) =>
    ({ st with requests := reqs }, some (.processorError backendName e))
  | (reqs, none) =>
    let st := { st with requests := reqs }
    let unfinished := (reqs.filter fun r => ¬ optNatTruthy r.status.finished).length
    if unfinished ≠ 0 then
      (st, some (.incompleteBatch unfinished reqs.length))
    else
      ({ st with
         failed_count := st.failed_count + (reqs.filter fun r => ¬ r.status.succeeded).length
         ran_count := st.ran_count + reqs.length
         start_time := 0 }, none)

/-- `Runner.run` with the inter-cycle sleep dropped: the cycles that actually
execute, one `run_once` per element, stopping at the first raise.  (With
`repeat_seconds == 0` the list has one element; with a repeat interval the
loop runs until interrupted, so a prefix of cycles executes.) -/
def run_cycles (t : Nat) (backendName : String) (st : RunnerState) :
    List Processor → RunnerState × Option UnableToTest
  | [] => (st, none)
  | p :: rest =>
    match run_once st t backendName p with
    | (st', some e) => (st', some e)
    | (st', none) => run_cycles t backendName st' rest

/-- `Runner.Backend._find_processor`: raises `UnableToTest` when the registry
is empty, when the name is not registered, or when the registered object is
not callable; otherwise returns the processor. -/
def find_processor (reg : Registry) (name : String) : Except UnableToTest PyValue :=
  if reg.isEmpty then
    .error .noBackends
  else
    match List.lookup name reg with
    | none => .error (.backendNotAvailable name)
    | some p => if p.callable then .ok p else .error (.invalidProcessor name)

/-- `run_from_command_line` / `_run_from_command_line`, restricted to the
engine: look the backend up in the registry (`Runner.__init__` →
`_find_processor`), run the cycles, and classify.  `UnableToTest` raised
anywhere inside is caught and mapped to exit code 2; a normal return yields
`ExitCode.fail` when `runner.failed_count` is nonzero and
`ExitCode.success` otherwise.  `env` interprets a callable's identity as its
processor behavior; `cycles` counts the executed dispatch cycles. -/
def run_from_command_line (reg : Registry) (env : Nat → Processor)
    (backendName : String) (requests : List RequestInfo)
    (cycles : Nat) (t : Nat) : Nat :=
  match find_processor reg backendName with
  | .error _ => ExitCode.unable_to_test
  | .ok (.pystr _) => ExitCode.unable_to_test
  | .ok .pynone => ExitCode.unable_to_test
  | .ok (.pyfunc i) =>
    match run_cycles t backendName (RunnerState.init requests)
            (List.replicate cycles (env i)) with
    | (_, some _) => ExitCode.unable_to_test
    | (st, none) => if st.failed_count ≠ 0 then ExitCode.fail else ExitCode.success

/-! ## Concrete demonstration values -/

/-- A concrete request configuration, as `Runner.ContextBuilder` would
build one. -/
def demoConfig : RequestConfig :=
  { url := "http://example.com/", proxy_url := some "http://1.2.3.4:8080"
    name := "0", has_start_callback := true, has_end_callback := true }

/-- A concrete user exception raised by a backend. -/
def demoEx : PyException := { message := "boom", rep := "Boom()" }

/-- A fresh (unstarted) request record. -/
def demoRequest : RequestInfo := RequestInfo.make demoConfig

/-- A record in the `Running` state: started at time 1, not finished. -/
def demoRunning : RequestInfo :=
  { config := demoConfig
    status := { started := some 1, finished := none, error := none
                result := none, status_code := none } }

/-- A record in the `Finished(Error)` state. -/
def demoFinished : RequestInfo :=
  { config := demoConfig
    status := { started := some 1, finished := some 2, error := some "boom"
                result := none, status_code := none } }

/-- A record in the `Finished(Success)` state. -/
def demoSucceeded : RequestInfo :=
  { config := demoConfig
    status := { started := some 1, finished := some 2, error := none
                result := some "page text", status_code := some 200 } }

/-- A per-record worker callback that calls `request.start()` and then
raises before calling `finish` — a strategy that violates its per-unit
error boundary. -/
def demoCrashCallback (r : RequestInfo) : RequestInfo × Option PyException :=
  (match r.start 1 with
   | .ok r' => r'
   | .error _ => r,
   some demoEx)

/-- The `proxytest.backends.dummy` module as `find_backends` sees it:
importing it registers the `dummy` backend. -/
def demoDummyModule : BackendModule :=
  { name := "proxytest.backends.dummy", behavior := .registers [("dummy", .pyfunc 0)] }

/-- A module whose import raises `MissingDependenciesError(['requests'])`,
like `proxytest.backends.requests` without the `requests` package. -/
def demoMissingDepsModule : BackendModule :=
  { name := "proxytest.backends.requests", behavior := .missingDeps ["requests"] }

/-! ## Helper lemmas -/

/-- When the callback never raises, the sequential loop attempts every
request in order and returns each record's processed state. -/
theorem seqLoop_no_raise {α : Type} (cb : α → α × Option PyException)
    (h : ∀ r, (cb r).2 = none) :
    ∀ l : List α, seqLoop cb l = (l, l.map fun r => (cb r).1, none) := by
  intro l
  induction l with
  | nil => rfl
  | cons r rest ih =>
    have hr := h r
    simp only [seqLoop]
    cases hcb : cb r with
    | mk r' exc =>
      rw [hcb] at hr
      simp only at hr
      subst hr
      simp [ih, hcb]

/-- Appending a fresh key to an association list makes it found by lookup. -/
theorem lookup_append_right {reg : Registry} {name : String} {p : PyValue}
    (h : List.lookup name reg = none) :
    List.lookup name (reg ++ [(name, p)]) = some p := by
  induction reg with
  | nil => simp [List.lookup]
  | cons kv rest ih =>
    cases kv with
    | mk k v =>
      by_cases hk : name = k
      · subst hk
        simp [List.lookup] at h
      · have hbeq : (name == k) = false := by simp [hk]
        simp only [List.cons_append, List.lookup, hbeq]
        apply ih
        simpa [List.lookup, hbeq] using h

/-- Whenever `max_workers` is not 1 and the effective pool size is positive,
the dispatcher builds a pool of that size and submits every request in batch
order. -/
theorem process_requests_pool_eq {α : Type} (reqs : List α)
    (cb : α → α × Option PyException) (mw : Option Int)
    (h1 : intOrZero mw ≠ 1) (h2 : 0 < effectivePoolSize reqs (intOrZero mw)) :
    process_requests reqs mw cb =
      { mode := .pool (effectivePoolSize reqs (intOrZero mw)).toNat
        attempts := reqs
        outcome := .completed (reqs.map cb) } := by
  unfold process_requests
  rw [if_neg h1, if_neg (not_le.mpr h2)]

/-- The registry and suggestion list computed by `find_backends` do not
depend on the import cache (`sys.modules`) it starts from: only the control
flow of import-versus-reload differs, and both run the module top level. -/
theorem find_backends_loaded_congr :
    ∀ (ms : List BackendModule) (reg : Registry) (sug L₁ L₂ : List String),
      (find_backends ⟨reg, sug, L₁⟩ ms).map (fun s => (s.registry, s.suggested)) =
      (find_backends ⟨reg, sug, L₂⟩ ms).map (fun s => (s.registry, s.suggested)) := by
  intro ms
  induction ms with
  | nil => intro reg sug L₁ L₂; rfl
  | cons m rest ih =>
    intro reg sug L₁ L₂
    simp only [find_backends, find_backends_step]
    by_cases hname : nameHasUnderscorePart m.name
    · rw [if_pos hname, if_pos hname]
      exact ih reg sug L₁ L₂
    · rw [if_neg hname, if_neg hname]
      cases m.behavior with
      | notSupported => exact ih reg sug L₁ L₂
      | missingDeps pkgs => exact ih reg (sug ++ sortStrings pkgs) L₁ L₂
      | registers entries =>
        dsimp only
        cases hra : registerAll reg entries with
        | error e => rfl
        | ok reg' => exact ih reg' sug _ _

/-! ## Claim C1 (request lifecycle guards) -/

/-- C1, counterexample: the claim says a second `finish()` after the record
is finished fails, and that a second `start()` from the `Running` or
`Finished` state fails.  Neither holds: starting a fresh record at time 1
and finishing it at time 2 with an error, a second `finish()` at time 3
succeeds and overwrites the finished-timestamp (the `assert self.started`
guard still passes), and a `start()` on the finished record also succeeds,
resetting the status entirely. -/
theorem request_lifecycle_double_finish_and_restart_accepted :
    ((((RequestInfo.make demoConfig).start 1).bind fun r =>
        r.finish 2 (some demoEx) none none).bind fun r =>
          r.finish 3 (some demoEx) none none) =
      Except.ok { config := demoConfig
                  status := { started := some 1, finished := some 3
                              error := some "boom", result := none
                              status_code := none } } ∧
    ((((RequestInfo.make demoConfig).start 1).bind fun r =>
        r.finish 2 (some demoEx) none none).bind fun r => r.start 5) =
      Except.ok { config := demoConfig
                  status := { started := some 5, finished := none
                              error := none, result := none
                              status_code := none } } := by
  exact ⟨rfl, rfl⟩

/-- C1, amended: what the lifecycle guards of `request.py` actually reject.
`finish()` on a never-started record fails (a `ValueError` when no outcome
is given, otherwise the `assert self.started` fires); `RequestStatus.start`
fails only from a `Finished` status (`assert not self.finished`);
`RequestInfo.start` never fails because it first resets the status to a
fresh `RequestStatus`; and `finish()` is accepted from any started status —
including an already-finished one, whose outcome it overwrites. -/
theorem request_lifecycle_guards (r : RequestInfo) (t : Nat)
    (e : Option PyException) (res : Option String) (sc : Option Nat) :
    (r.status.started = none → ∃ err, r.finish t e res sc = Except.error err) ∧
    (optNatTruthy r.status.finished = true →
      r.status.start t =
        Except.error (PyError.assertionError "start called on a finished status")) ∧
    (r.start t =
      Except.ok { r with status := { RequestStatus.init with started := some t } }) ∧
    (optNatTruthy r.status.started = true → ¬(e = none ∧ res = none) →
      r.finish t e res sc =
        Except.ok { r with status := { r.status with
                      finished := some t
                      error := e.map PyException.text
                      result := res
                      status_code := sc } }) := by
  refine ⟨?_, ?_, ?_, ?_⟩
  · intro hst
    by_cases hout : e = none ∧ res = none
    · exact ⟨PyError.valueError "Either error or result is required.",
             by simp [RequestInfo.finish, hout]⟩
    · refine ⟨PyError.assertionError "finish called on an unstarted status", ?_⟩
      simp only [RequestInfo.finish, if_neg hout, RequestStatus.finish, hst]
      rfl
  · intro hfin
    simp [RequestStatus.start, hfin]
  · simp [RequestInfo.start, RequestStatus.start, RequestStatus.init, optNatTruthy,
          Except.map]
  · intro hst hout
    simp only [RequestInfo.finish, if_neg hout, RequestStatus.finish, hst]
    simp [Except.map]

/-- C1, witness: the guards evaluated at concrete records — a fresh record
rejects `finish`, a finished status rejects `RequestStatus.start`, a
finished record still accepts `RequestInfo.start` (resetting) and accepts a
second `finish`. -/
theorem request_lifecycle_guards_witness :
    (∃ err, demoRequest.finish 4 (some demoEx) none none = Except.error err) ∧
    (demoFinished.status.start 9 =
      Except.error (PyError.assertionError "start called on a finished status")) ∧
    (demoFinished.start 9 =
      Except.ok { demoFinished with
                  status := { RequestStatus.init with started := some 9 } }) ∧
    (demoFinished.finish 9 (some demoEx) none none =
      Except.ok { demoFinished with
                  status := { demoFinished.status with
                              finished := some 9
                              error := some "boom"
                              result := none
                              status_code := none } }) := by
  refine ⟨?_, ?_, ?_, ?_⟩
  · exact (request_lifecycle_guards demoRequest 4 (some demoEx) none none).1 rfl
  · exact (request_lifecycle_guards demoFinished 9 (some demoEx) none none).2.1 (by decide)
  · exact (request_lifecycle_guards demoFinished 9 (some demoEx) none none).2.2.1
  · exact (request_lifecycle_guards demoFinished 9 (some demoEx) none none).2.2.2
      (by decide) (by simp)

/-! ## Claim C8 (completion requires an outcome) -/

/-- C8: for every record, in every state, calling `finish()` with neither an
error nor a result raises `ValueError` — and it does so before any status
field is touched, so the failed call leaves the record's status unchanged
(the model's error return carries no mutated state, mirroring that the
Python `raise` precedes every assignment in `RequestInfo.finish`). -/
theorem finish_requires_outcome (r : RequestInfo) (t : Nat) (sc : Option Nat) :
    r.finish t none none sc =
      Except.error (PyError.valueError "Either error or result is required.") := by
  simp [RequestInfo.finish]

/-! ## Claim C2 (worker-count policy) -/

/-- C2: the dispatcher's worker-count policy.  `max_workers == 1` runs the
sequential loop on the calling thread (no pool; with a well-behaved callback
it visits the records in batch order); `max_workers == 0` or unset gives a
pool of one worker per record (size `len(requests)`, shown here for a batch
that is nonempty, so the pool can be built); `max_workers > 1` gives a
bounded pool of exactly that many workers, with the records submitted in
batch order. -/
theorem worker_count_policy {α : Type} (reqs : List α)
    (cb : α → α × Option PyException) (w : Int) :
    ((process_requests reqs (some 1) cb).mode = PoolMode.noPool) ∧
    ((∀ r, (cb r).2 = none) → (process_requests reqs (some 1) cb).attempts = reqs) ∧
    (reqs ≠ [] →
      (process_requests reqs none cb).mode = PoolMode.pool reqs.length ∧
      (process_requests reqs none cb).attempts = reqs ∧
      (process_requests reqs (some 0) cb).mode = PoolMode.pool reqs.length ∧
      (process_requests reqs (some 0) cb).attempts = reqs) ∧
    (1 < w →
      (process_requests reqs (some w) cb).mode = PoolMode.pool w.toNat ∧
      (process_requests reqs (some w) cb).attempts = reqs) := by
  refine ⟨?_, ?_, ?_, ?_⟩
  · simp [process_requests, intOrZero]
  · intro h
    simp [process_requests, intOrZero, seqLoop_no_raise cb h reqs]
  · intro hne
    have hlen : (0 : Int) < reqs.length := by
      simpa using List.length_pos.mpr hne
    have hz : intOrZero none = 0 := rfl
    have hz0 : intOrZero (some 0) = 0 := rfl
    have hsize : effectivePoolSize reqs (0 : Int) = reqs.length := by
      simp [effectivePoolSize]
    have hnone := process_requests_pool_eq reqs cb none (by simp [hz])
      (by rw [hz, hsize]; exact hlen)
    have hsome := process_requests_pool_eq reqs cb (some 0) (by simp [hz0])
      (by rw [hz0, hsize]; exact hlen)
    rw [hz, hsize] at hnone
    rw [hz0, hsize] at hsome
    rw [hnone, hsome]
    simp
  · intro hw
    have h1 : intOrZero (some w) = w := by
      simp [intOrZero]
      omega
    have hsize : effectivePoolSize reqs w = w := by
      simp only [effectivePoolSize, if_pos (by omega : w > 0)]
    have h := process_requests_pool_eq reqs cb (some w) (by rw [h1]; omega)
      (by rw [h1, hsize]; omega)
    rw [h1, hsize] at h
    rw [h]
    exact ⟨rfl, rfl⟩

/-- C2, witness: the policy at a concrete two-element batch and `w = 3`. -/
theorem worker_count_policy_witness :
    ((process_requests [10, 20] (some 1) fun n => (n + 1, none)).mode =
      PoolMode.noPool) ∧
    ((process_requests [10, 20] (some 1) fun n => (n + 1, none)).attempts = [10, 20]) ∧
    ((process_requests [10, 20] none fun n => (n + 1, none)).mode = PoolMode.pool 2) ∧
    ((process_requests [10, 20] (some 0) fun n => (n + 1, none)).mode = PoolMode.pool 2) ∧
    ((process_requests [10, 20] (some 3) fun n => (n + 1, none)).mode = PoolMode.pool 3) ∧
    ((process_requests [10, 20] (some 3) fun n => (n + 1, none)).attempts = [10, 20]) := by
  have h := worker_count_policy [10, 20] (fun n => (n + 1, none)) 3
  refine ⟨h.1, h.2.1 (fun _ => rfl), ?_, ?_, ?_, ?_⟩
  · exact (h.2.2.1 (by decide)).1
  · exact (h.2.2.1 (by decide)).2.2.1
  · exact (h.2.2.2 (by decide)).1
  · exact (h.2.2.2 (by decide)).2

/-! ## Claim C10 (empty batch) -/

/-- C10: dispatching an empty batch.  With `max_workers == 1` the sequential
loop runs zero iterations and returns; with `max_workers > 1` a pool of that
size is built, nothing is submitted, and the call returns; but with
`max_workers == 0` or unset the pool size is computed as `len(requests) == 0`
and `ThreadPoolExecutor(max_workers=0)` raises `ValueError` — in every case
the callback is never invoked (`attempts = []`). -/
theorem empty_batch_dispatch {α : Type} (cb : α → α × Option PyException) (w : Int) :
    (process_requests ([] : List α) (some 1) cb =
      { mode := .noPool, attempts := [], outcome := .completed [] }) ∧
    (1 < w →
      process_requests ([] : List α) (some w) cb =
        { mode := .pool w.toNat, attempts := [], outcome := .completed [] }) ∧
    (process_requests ([] : List α) none cb =
      { mode := .invalidPool 0, attempts := [], outcome := .poolInitError }) ∧
    (process_requests ([] : List α) (some 0) cb =
      { mode := .invalidPool 0, attempts := [], outcome := .poolInitError }) := by
  refine ⟨?_, ?_, ?_, ?_⟩
  · simp [process_requests, intOrZero, seqLoop]
  · intro hw
    have h1 : intOrZero (some w) = w := by
      simp [intOrZero]
      omega
    have hsize : effectivePoolSize ([] : List α) w = w := by
      simp only [effectivePoolSize, if_pos (by omega : w > 0)]
    have h := process_requests_pool_eq ([] : List α) cb (some w) (by rw [h1]; omega)
      (by rw [h1, hsize]; omega)
    rw [h1, hsize] at h
    simpa using h
  · simp [process_requests, intOrZero, effectivePoolSize]
  · simp [process_requests, intOrZero, effectivePoolSize]

/-- C10, witness: the empty batch evaluated at `w = 4` with a concrete
callback on `Nat`. -/
theorem empty_batch_dispatch_witness :
    (process_requests ([] : List Nat) (some 1) (fun n => (n, none)) =
      { mode := .noPool, attempts := [], outcome := .completed [] }) ∧
    (process_requests ([] : List Nat) (some 4) (fun n => (n, none)) =
      { mode := .pool 4, attempts := [], outcome := .completed [] }) ∧
    (process_requests ([] : List Nat) none (fun n => (n, none)) =
      { mode := .invalidPool 0, attempts := [], outcome := .poolInitError }) ∧
    (process_requests ([] : List Nat) (some 0) (fun n => (n, none)) =
      { mode := .invalidPool 0, attempts := [], outcome := .poolInitError }) := by
  have h := empty_batch_dispatch (fun n : Nat => (n, none)) 4
  exact ⟨h.1, h.2.1 (by decide), h.2.2.1, h.2.2.2⟩

/-! ## Claim C7 (exactly-once dispatch, completion before return) -/

/-- C7, counterexample: the claim says a dispatch call does not return until
every submitted record has reached a terminal state, unless the dispatch
invocation itself raised.  In pool mode a worker callback that starts its
record and then raises is captured in a `Future` that is never examined:
here `process_requests` on a one-record batch with `max_workers = 2`
returns normally (outcome `completed`, no raise), yet its only record is
left `Running` — `finished` unset, no terminal state reached. -/
theorem pool_dispatch_returns_with_unfinished_record :
    process_requests [demoRequest] (some 2) demoCrashCallback =
      { mode := .pool 2
        attempts := [demoRequest]
        outcome := .completed [(demoRunning, some demoEx)] } ∧
    optNatTruthy demoRunning.status.finished = false := by
  exact ⟨rfl, rfl⟩

/-- C7, amended: each record is handed to the callback exactly once and the
call returns only after all of them were processed, *provided every
per-record callback invocation completes without raising* (the per-unit
error boundary the strategy contract requires) and the dispatch can start
(sequential mode, or a buildable pool).  Without that proviso the guarantee
fails: a raising callback in pool mode leaves its record non-terminal while
the call still returns normally, and in sequential mode it aborts the
remaining records (the dispatch call itself raising). -/
theorem dispatch_processes_each_record_once {α : Type} (reqs : List α)
    (mw : Option Int) (cb : α → α × Option PyException)
    (hcb : ∀ r, (cb r).2 = none)
    (hstart : mw = some 1 ∨ 0 < effectivePoolSize reqs (intOrZero mw)) :
    (process_requests reqs mw cb).attempts = reqs ∧
    (process_requests reqs mw cb).outcome = .completed (reqs.map cb) := by
  have hfun : ((fun r : α => (r, (none : Option PyException))) ∘ fun r => (cb r).1) = cb := by
    funext r
    have h2 := hcb r
    cases hc : cb r with
    | mk a b =>
      rw [hc] at h2
      simp only at h2
      subst h2
      simp [Function.comp, hc]
  by_cases hm : intOrZero mw = 1
  · unfold process_requests
    rw [if_pos hm, seqLoop_no_raise cb hcb reqs]
    refine ⟨rfl, ?_⟩
    simp [← List.map_map, hfun]
    rw [← hfun]
    simp
  · cases hstart with
    | inl h =>
      exact absurd (by rw [h]; rfl) hm
    | inr h =>
      rw [process_requests_pool_eq reqs cb mw hm h]
      exact ⟨rfl, rfl⟩

/-- C7, witness: a concrete batch of two numbers with a well-behaved
callback and `max_workers = 5`: both are attempted once and both results
are present when the call returns. -/
theorem dispatch_processes_each_record_once_witness :
    (process_requests [10, 20] (some 5) fun n => (n * 2, none)).attempts = [10, 20] ∧
    (process_requests [10, 20] (some 5) fun n => (n * 2, none)).outcome =
      .completed [(20, none), (40, none)] := by
  have h := dispatch_processes_each_record_once [10, 20] (some 5)
    (fun n => (n * 2, none)) (fun _ => rfl) (Or.inr (by decide))
  exact ⟨h.1, h.2⟩

/-! ## Claim C3 (registry register/lookup contract) -/

/-- C3: `register` rejects an empty name (`ValueError`) and a non-callable
processor (`TypeError`); for a valid pair on a name not yet present it adds
exactly one entry, which `lookup` then returns; and a second registration
under the same name fails with `AlreadyInRegistry` — the raise happens
before the mapping is touched, so the registry value is unchanged and
lookup still returns the originally registered strategy. -/
theorem register_lookup_roundtrip (reg : Registry) (name : String) (p : PyValue) :
    (∀ q : PyValue, register reg "" q =
        Except.error (PyError.valueError "Missing backend name!")) ∧
    (name ≠ "" → p.callable = false →
      register reg name p =
        Except.error (PyError.typeError "processor should be callable, got str!")) ∧
    (name ≠ "" → p.callable = true → List.lookup name reg = none →
      register reg name p = Except.ok (reg ++ [(name, p)]) ∧
      List.lookup name (reg ++ [(name, p)]) = some p ∧
      ∀ q : PyValue, q.callable = true →
        register (reg ++ [(name, p)]) name q =
          Except.error (PyError.alreadyInRegistry name)) := by
  refine ⟨?_, ?_, ?_⟩
  · intro q
    simp [register]
  · intro hname hcall
    simp [register, hname, hcall]
  · intro hname hcall hfresh
    have hfound : List.lookup name (reg ++ [(name, p)]) = some p :=
      lookup_append_right hfresh
    refine ⟨?_, hfound, ?_⟩
    · simp [register, hname, hcall, hfresh]
    · intro q hq
      simp [register, hname, hq, hfound]

/-- C3, witness: registering `simple` in an initially empty registry, then
attempting to register it again. -/
theorem register_lookup_roundtrip_witness :
    (register [] "" (.pyfunc 7) =
      Except.error (PyError.valueError "Missing backend name!")) ∧
    (register [] "simple" (.pystr "oops") =
      Except.error (PyError.typeError "processor should be callable, got str!")) ∧
    (register [] "simple" (.pyfunc 7) = Except.ok [("simple", .pyfunc 7)]) ∧
    (List.lookup "simple" [("simple", PyValue.pyfunc 7)] = some (.pyfunc 7)) ∧
    (register [("simple", .pyfunc 7)] "simple" (.pyfunc 8) =
      Except.error (PyError.alreadyInRegistry "simple")) := by
  have h := register_lookup_roundtrip [] "simple" (.pyfunc 7)
  have hbad := register_lookup_roundtrip [] "simple" (.pystr "oops")
  have h3 := h.2.2 (by decide) rfl rfl
  exact ⟨h.1 (.pyfunc 7), hbad.2.1 (by decide) rfl, h3.1, h3.2.1, h3.2.2 (.pyfunc 8) rfl⟩

/-! ## Claim C9 (context clamps negative/missing options to zero) -/

/-- C9: `ProxyTestContext.__init__` passes `timeout` and `max_workers`
through `_non_negative`, so `None` and every negative value are stored as
`0`; and a stored worker-count of `0` reaching the dispatcher selects the
unbounded policy — a pool of one worker per record — rather than being
rejected. -/
theorem context_clamps_to_zero (tmo w : Option Int)
    (reqs : Option (List RequestInfo)) :
    (tmo = none ∨ ∃ x : Int, x < 0 ∧ tmo = some x) →
    ((w = none ∨ ∃ y : Int, y < 0 ∧ w = some y) →
      (ProxyTestContext.make reqs tmo w).timeout = 0 ∧
      (ProxyTestContext.make reqs tmo w).max_workers = 0 ∧
      ∀ {α : Type} (rs : List α) (cb : α → α × Option PyException), rs ≠ [] →
        (process_requests rs (some (ProxyTestContext.make reqs tmo w).max_workers) cb).mode =
          PoolMode.pool rs.length) := by
  intro htmo hw
  have hzero : ∀ v : Option Int, (v = none ∨ ∃ x : Int, x < 0 ∧ v = some x) →
      nonNegative v = 0 := by
    intro v hv
    cases hv with
    | inl h => subst h; rfl
    | inr h =>
      obtain ⟨x, hx, rfl⟩ := h
      simp only [nonNegative]
      have : (if x = 0 then (0 : Int) else x) = x := by
        rw [if_neg (by omega)]
      rw [this]
      omega
  have ht : (ProxyTestContext.make reqs tmo w).timeout = 0 := hzero tmo htmo
  have hmw : (ProxyTestContext.make reqs tmo w).max_workers = 0 := hzero w hw
  refine ⟨ht, hmw, ?_⟩
  intro α rs cb hne
  rw [hmw]
  have hlen : (0 : Int) < rs.length := by
    simpa using List.length_pos.mpr hne
  have hsize : effectivePoolSize rs (intOrZero (some 0)) = rs.length := by
    simp [intOrZero, effectivePoolSize]
  have h := process_requests_pool_eq rs cb (some 0) (by simp [intOrZero])
    (by rw [hsize]; exact hlen)
  rw [hsize] at h
  rw [h]
  simp

/-- C9, witness: `timeout = -3` and `max_workers = -2` are both stored as
`0`, and the clamped worker-count dispatches a two-record batch with a
pool of two workers. -/
theorem context_clamps_to_zero_witness :
    (ProxyTestContext.make none (some (-3)) (some (-2))).timeout = 0 ∧
    (ProxyTestContext.make none (some (-3)) (some (-2))).max_workers = 0 ∧
    (process_requests [10, 20]
        (some (ProxyTestContext.make none (some (-3)) (some (-2))).max_workers)
        (fun n : Nat => (n, none))).mode = PoolMode.pool 2 := by
  have h := context_clamps_to_zero (some (-3)) (some (-2)) none
    (Or.inr ⟨-3, by decide, rfl⟩) (Or.inr ⟨-2, by decide, rfl⟩)
  exact ⟨h.1, h.2.1, h.2.2 [10, 20] (fun n : Nat => (n, none)) (by decide)⟩

/-! ## Claim C4 (incomplete batch is fatal for the cycle) -/

/-- C4: when the backend strategy returns normally but leaves at least one
record unfinished, `run_once` raises `UnableToTest` naming the unfinished
count out of the batch total (the `'N out of M requests unfinished!'`
message), and the raise happens before the statistics lines, so
`failed_count` and `ran_count` are exactly what they were before the
cycle — the violation is never silently ignored. -/
theorem incomplete_batch_is_fatal (st : RunnerState) (t : Nat) (bname : String)
    (proc : Processor) (reqs : List RequestInfo)
    (hproc : proc st.requests = (reqs, none))
    (hunf : 0 < (reqs.filter fun r => ¬ optNatTruthy r.status.finished).length) :
    ∃ st', run_once st t bname proc =
        (st', some (.incompleteBatch
          ((reqs.filter fun r => ¬ optNatTruthy r.status.finished).length)
          reqs.length)) ∧
      st'.failed_count = st.failed_count ∧
      st'.ran_count = st.ran_count := by
  refine ⟨{ st with requests := reqs
                    start_time := t
                    start_time_all_runs :=
                      if st.start_time_all_runs ≠ 0 then st.start_time_all_runs
                      else t }, ?_, rfl, rfl⟩
  unfold run_once
  dsimp only
  rw [hproc]
  dsimp only
  rw [if_pos (by omega :
    (reqs.filter fun r => ¬ optNatTruthy r.status.finished).length ≠ 0)]

/-- C4, witness: a strategy that leaves its single record `Running`: the
cycle fails with `incompleteBatch 1 1` and the counters stay at zero. -/
theorem incomplete_batch_is_fatal_witness :
    ∃ st', run_once (RunnerState.init [demoRequest]) 7 "dummy"
        (fun rs => (rs.map fun _ => demoRunning, none)) =
      (st', some (.incompleteBatch 1 1)) ∧
      st'.failed_count = (RunnerState.init [demoRequest]).failed_count ∧
      st'.ran_count = (RunnerState.init [demoRequest]).ran_count := by
  exact incomplete_batch_is_fatal (RunnerState.init [demoRequest]) 7 "dummy"
    (fun rs => (rs.map fun _ => demoRunning, none)) [demoRunning] rfl (by decide)

/-! ## Claim C5 (exit-code classification) -/

/-- C5: exit classification of a command-line run.  A registry lookup
failure (empty registry, unknown name, non-callable entry) exits with
`unable_to_test` (2); so does any cycle that raises — which covers a
processor exception (`BackendExecutionError` in the spec's terms) and an
incomplete batch.  When every cycle completes its batch, the exit code is
`success` (0) exactly when the accumulated `failed_count` is zero and
`fail` (1) otherwise. -/
theorem exit_classification (reg : Registry) (env : Nat → Processor)
    (bname : String) (requests : List RequestInfo) (cycles t : Nat) :
    ((∃ e, find_processor reg bname = Except.error e) →
      run_from_command_line reg env bname requests cycles t =
        ExitCode.unable_to_test) ∧
    (∀ i, find_processor reg bname = Except.ok (PyValue.pyfunc i) →
      (∀ st e, run_cycles t bname (RunnerState.init requests)
          (List.replicate cycles (env i)) = (st, some e) →
        run_from_command_line reg env bname requests cycles t =
          ExitCode.unable_to_test) ∧
      (∀ st, run_cycles t bname (RunnerState.init requests)
          (List.replicate cycles (env i)) = (st, none) →
        run_from_command_line reg env bname requests cycles t =
          if st.failed_count = 0 then ExitCode.success else ExitCode.fail)) := by
  constructor
  · rintro ⟨e, he⟩
    simp [run_from_command_line, he]
  · intro i hi
    constructor
    · intro st e hrc
      simp [run_from_command_line, hi, hrc]
    · intro st hrc
      simp only [run_from_command_line, hi, hrc]
      by_cases hf : st.failed_count = 0
      · simp [hf]
      · simp [hf]

/-- C5, witness: four concrete runs on a one-record batch — empty registry
(2), a processor that raises (2), a processor finishing the record with a
result (0), and a processor finishing it with an error (1). -/
theorem exit_classification_witness :
    run_from_command_line [] (fun _ rs => (rs, none)) "dummy" [demoRequest] 1 7 =
      ExitCode.unable_to_test ∧
    run_from_command_line [("dummy", .pyfunc 0)] (fun _ rs => (rs, some demoEx))
        "dummy" [demoRequest] 1 7 = ExitCode.unable_to_test ∧
    run_from_command_line [("dummy", .pyfunc 0)]
        (fun _ rs => (rs.map fun _ => demoSucceeded, none))
        "dummy" [demoRequest] 1 7 = ExitCode.success ∧
    run_from_command_line [("dummy", .pyfunc 0)]
        (fun _ rs => (rs.map fun _ => demoFinished, none))
        "dummy" [demoRequest] 1 7 = ExitCode.fail := by
  refine ⟨?_, ?_, ?_, ?_⟩
  · exact (exit_classification [] (fun _ rs => (rs, none)) "dummy"
      [demoRequest] 1 7).1 ⟨.noBackends, rfl⟩
  · exact ((exit_classification [("dummy", .pyfunc 0)] (fun _ rs => (rs, some demoEx))
      "dummy" [demoRequest] 1 7).2 0 rfl).1
      { requests := [demoRequest], failed_count := 0, ran_count := 0
        start_time := 7, start_time_all_runs := 7 }
      (.processorError "dummy" demoEx) rfl
  · exact ((exit_classification [("dummy", .pyfunc 0)]
      (fun _ rs => (rs.map fun _ => demoSucceeded, none))
      "dummy" [demoRequest] 1 7).2 0 rfl).2
      { requests := [demoSucceeded], failed_count := 0, ran_count := 1
        start_time := 0, start_time_all_runs := 7 } rfl
  · exact ((exit_classification [("dummy", .pyfunc 0)]
      (fun _ rs => (rs.map fun _ => demoFinished, none))
      "dummy" [demoRequest] 1 7).2 0 rfl).2
      { requests := [demoFinished], failed_count := 1, ran_count := 1
        start_time := 0, start_time_all_runs := 7 } rfl

/-! ## Claim C6 (discovery idempotence) -/

/-- C6, counterexample: `find_backends` itself never calls
`reset_backends`, so running discovery twice in a row is *not* idempotent.
A first pass over the `dummy` module registers it; the second pass reloads
the module, whose registration call now hits the still-populated registry
and raises `AlreadyInRegistry('dummy')` — an exception
`import_exception_manager` does not catch.  And a module that raises
`MissingDependenciesError(['requests'])` is not cached by a failed import,
so a second pass appends `'requests'` to the suggestion list again,
duplicating it. -/
theorem discovery_not_idempotent_without_reset :
    find_backends { registry := [], suggested := [], loaded := [] }
        [demoDummyModule] =
      Except.ok { registry := [("dummy", .pyfunc 0)], suggested := []
                  loaded := ["proxytest.backends.dummy"] } ∧
    find_backends { registry := [("dummy", .pyfunc 0)], suggested := []
                    loaded := ["proxytest.backends.dummy"] }
        [demoDummyModule] =
      Except.error (PyError.alreadyInRegistry "dummy") ∧
    find_backends { registry := [], suggested := [], loaded := [] }
        [demoMissingDepsModule] =
      Except.ok { registry := [], suggested := ["requests"], loaded := [] } ∧
    find_backends { registry := [], suggested := ["requests"], loaded := [] }
        [demoMissingDepsModule] =
      Except.ok { registry := [], suggested := ["requests", "requests"]
                  loaded := [] } := by
  exact ⟨rfl, rfl, rfl, rfl⟩

/-- C6, amended: discovery is repeatable only across an explicit
`reset_backends()` call (exactly how the repository's own test interleaves
them): after a successful discovery pass from a fresh state, clearing the
registry and suggestion list and discovering again succeeds and rebuilds
the very same registry and suggestion list — the import cache left behind
by the first pass makes no difference to either.  Without the reset, a
second pass duplicates suggestions and fails on already-registered names. -/
theorem discovery_idempotent_after_reset (ms : List BackendModule)
    (st1 : BackendState)
    (h : find_backends { registry := [], suggested := [], loaded := [] } ms =
      Except.ok st1) :
    ∃ st2, find_backends (reset_backends st1) ms = Except.ok st2 ∧
      st2.registry = st1.registry ∧ st2.suggested = st1.suggested := by
  have hc := find_backends_loaded_congr ms [] [] st1.loaded []
  rw [h] at hc
  cases hfb : find_backends { registry := [], suggested := []
                              loaded := st1.loaded } ms with
  | error e =>
    rw [hfb] at hc
    simp [Except.map] at hc
  | ok st2 =>
    rw [hfb] at hc
    simp only [Except.map] at hc
    have hpair : (st2.registry, st2.suggested) = (st1.registry, st1.suggested) := by
      injection hc
    refine ⟨st2, ?_, ?_, ?_⟩
    · show find_backends { registry := [], suggested := []
                           loaded := st1.loaded } ms = Except.ok st2
      exact hfb
    · exact congrArg Prod.fst hpair
    · exact congrArg Prod.snd hpair

/-- C6, witness: one discovery pass over the `dummy` module, a reset, and a
second pass: the registry and suggestions come back identical. -/
theorem discovery_idempotent_after_reset_witness :
    ∃ st2, find_backends
        (reset_backends { registry := [("dummy", .pyfunc 0)], suggested := []
                          loaded := ["proxytest.backends.dummy"] })
        [demoDummyModule] = Except.ok st2 ∧
      st2.registry = [("dummy", .pyfunc 0)] ∧ st2.suggested = [] := by
  exact discovery_idempotent_after_reset [demoDummyModule]
    { registry := [("dummy", .pyfunc 0)], suggested := []
      loaded := ["proxytest.backends.dummy"] } rfl

end Proxytest
